import Mathlib

/-!
Verification of the PVF prepare-worker (polkadot/node/core/pvf/prepare-worker/src/lib.rs).

The worker's per-job logic is embedded shallowly: the parent supervisor
(`handle_parent_process`), the child response assembly (`handle_child_process`
tail), the CPU-accounting arithmetic (`get_total_cpu_usage`), and the OOM
escape handler installed by `start_memory_tracking` become pure Lean functions
over explicit inputs (pipe payload, wait status, rusage samples, filesystem
write result).  Machine integers are modelled as `Int`/`Nat` with explicit
two's-complement wrapping where the Rust code performs `as` casts or wrapping
arithmetic.  Durations are modelled as nanosecond counts (`Nat`), matching
`std::time::Duration` exactness; `Duration` subtraction panics on underflow,
which is modelled by an `Option` result.

Types defined in the `polkadot-node-core-pvf-common` crate (the error
taxonomy, `MemoryStats`, the SCALE codec and `OOM_PAYLOAD`) are not part of
the source tree; they are modelled from the specification and marked as such
in their doc comments.
-/

namespace Pvf

/-- A byte string; entries are byte values. -/
abbrev Bytes := List Nat

/-- Modelled from the spec: the wire-level error taxonomy of the spec's
error table — `Prevalidation`, `Preparation`, `RuntimeConstruction`, `Panic`,
`IoErr`, `JobDied`, `TimedOut`, `Kernel`, and the distinct OOM kind signalled
via the sentinel.  (Defined in `polkadot-node-core-pvf-common`, which is not
part of the source tree; the constructors used by `lib.rs` are all here.) -/
inductive PrepareError where
  | Prevalidation (msg : String)
  | Preparation (msg : String)
  | RuntimeConstruction (msg : String)
  | Panic (msg : String)
  | TimedOut
  | JobDied
  | IoErr (msg : String)
  | Kernel (msg : String)
  | OutOfMemory
deriving DecidableEq, Repr

/-- Modelled from the spec: the allocator-sampling summary ("resident/virtual
peak samples") collected by the memory-tracker thread. -/
structure MemoryAllocationStats where
  resident : Nat
  virt : Nat
deriving DecidableEq, Repr

/-- Modelled from the spec and the uses in `lib.rs`: optional allocator-tracker
summary, optional thread peak-RSS, and the peak tracked-allocation bytes
(`u64`, set from the clamped `end_memory_tracking` result). -/
structure MemoryStats where
  memory_tracker_stats : Option MemoryAllocationStats
  max_rss : Option Int
  peak_tracked_alloc : Nat
deriving DecidableEq, Repr

/-- `struct Response { artifact: CompiledArtifact, memory_stats: MemoryStats }`
from `lib.rs`; `CompiledArtifact` is a byte vector. -/
structure Response where
  artifact : Bytes
  memory_stats : MemoryStats
deriving DecidableEq, Repr

/-- `PrepareStats { memory_stats, cpu_time_elapsed }`; the duration is a
nanosecond count. -/
structure PrepareStats where
  memory_stats : MemoryStats
  cpu_time_elapsed : Nat
deriving DecidableEq, Repr

/-- The `nix` wait status observed by `waitpid` in the parent. -/
inductive WaitStatus where
  | Exited (pid : Int) (code : Int)
  | Signaled (pid : Int) (signal : Int) (coreDump : Bool)
  | Stopped (pid : Int) (signal : Int)
  | PtraceEvent (pid : Int) (signal : Int) (event : Int)
  | PtraceSyscall (pid : Int)
  | Continued (pid : Int)
  | StillAlive
deriving DecidableEq, Repr

/-- The fields of `nix::sys::resource::Usage` read by `get_total_cpu_usage`
(`tv_sec`/`tv_usec` of user and system time, `i64` on 64-bit Linux). -/
structure Usage where
  user_sec : Int
  user_usec : Int
  system_sec : Int
  system_usec : Int
deriving DecidableEq, Repr

/-- Two's-complement wrap of an integer into the `i64` range, modelling Rust
release-mode wrapping arithmetic. -/
def i64_wrap (x : Int) : Int := (x + 2 ^ 63) % 2 ^ 64 - 2 ^ 63

/-- A Rust `as u64` cast of an `i64` value. -/
def as_u64 (x : Int) : Nat := (x % 2 ^ 64).toNat

/-- `Duration::from_micros`, in nanoseconds. -/
def duration_from_micros (m : Nat) : Nat := m * 1000

/-- The `micros` expression of `get_total_cpu_usage`:
`(((user.tv_sec + system.tv_sec) * 1_000_000) + (system.tv_usec + user.tv_usec) as i64) as u64`,
with every `i64` operation wrapping. -/
def total_cpu_micros (r : Usage) : Nat :=
  as_u64 (i64_wrap (i64_wrap (i64_wrap (r.user_sec + r.system_sec) * 1000000) +
    i64_wrap (r.system_usec + r.user_usec)))

/-- `get_total_cpu_usage` from `lib.rs`: the wrapped microsecond total, as a
`Duration` (nanoseconds). -/
def get_total_cpu_usage (r : Usage) : Nat :=
  duration_from_micros (total_cpu_micros r)

/-- `error_from_errno` from `lib.rs`: builds a `PrepareError::Kernel` whose
message carries the context and the errno.  (The Rust message also appends
`io::Error::last_os_error()`; the ambient OS error text is not modelled — no
claim depends on the message text.) -/
def error_from_errno (context : String) (errno : Nat) : PrepareError :=
  .Kernel (context ++ ": " ++ toString errno)

/-- Debug-style rendering of a wait status, for the
"unexpected status from wait" message. -/
def wait_status_string : WaitStatus → String
  | .Exited pid code => "Exited(Pid(" ++ toString pid ++ "), " ++ toString code ++ ")"
  | .Signaled pid signal core =>
      "Signaled(Pid(" ++ toString pid ++ "), " ++ toString signal ++ ", " ++ toString core ++ ")"
  | .Stopped pid signal => "Stopped(Pid(" ++ toString pid ++ "), " ++ toString signal ++ ")"
  | .PtraceEvent pid signal event =>
      "PtraceEvent(Pid(" ++ toString pid ++ "), " ++ toString signal ++ ", " ++
        toString event ++ ")"
  | .PtraceSyscall pid => "PtraceSyscall(Pid(" ++ toString pid ++ "))"
  | .Continued pid => "Continued(Pid(" ++ toString pid ++ "))"
  | .StillAlive => "StillAlive"

/-! ### Pipe payload codec

Modelled from the spec: the pipe carries a "canonical deterministic byte
encoding" of `ChildResponse = Result<Response, PrepareError>` (a tag byte for
the `Result` and each enum, length-prefixed byte strings).  The concrete codec
lives in `polkadot-node-core-pvf-common` / `parity-scale-codec`, outside the
source tree; the byte-level layout chosen here is one such canonical
deterministic encoding.  Decoding consumes a prefix of the input (trailing
bytes are ignored, as with `parity-scale-codec`), and an empty input has no
tag byte, so it fails to decode. -/

/-- Little-endian encoding of `n mod 256^k` on `k` bytes. -/
def encode_le : Nat → Nat → Bytes
  | 0, _ => []
  | k + 1, n => n % 256 :: encode_le k (n / 256)

/-- Little-endian byte-list to natural number. -/
def le_to_nat : Bytes → Nat
  | [] => 0
  | b :: rest => b % 256 + 256 * le_to_nat rest

/-- Length-prefixed byte string (u64 little-endian length). -/
def encode_bytes (b : Bytes) : Bytes := encode_le 8 b.length ++ b

/-- Strings are encoded as length-prefixed byte values of their characters. -/
def encode_string (s : String) : Bytes := encode_bytes (s.data.map (fun c => c.toNat % 256))

/-- Option: tag byte 0 for none, 1 followed by the payload for some. -/
def encode_option {α : Type} (f : α → Bytes) : Option α → Bytes
  | none => [0]
  | some a => 1 :: f a

/-- `i64` encoded as its `u64` two's-complement image, little-endian. -/
def encode_i64 (x : Int) : Bytes := encode_le 8 (as_u64 x)

def encode_alloc_stats (s : MemoryAllocationStats) : Bytes :=
  encode_le 8 s.resident ++ encode_le 8 s.virt

def encode_memory_stats (m : MemoryStats) : Bytes :=
  encode_option encode_alloc_stats m.memory_tracker_stats ++
    encode_option encode_i64 m.max_rss ++ encode_le 8 m.peak_tracked_alloc

def encode_response (r : Response) : Bytes :=
  encode_bytes r.artifact ++ encode_memory_stats r.memory_stats

/-- Enum tag per the spec's error table order, then the payload. -/
def encode_prepare_error : PrepareError → Bytes
  | .Prevalidation m => 0 :: encode_string m
  | .Preparation m => 1 :: encode_string m
  | .RuntimeConstruction m => 2 :: encode_string m
  | .Panic m => 3 :: encode_string m
  | .IoErr m => 4 :: encode_string m
  | .JobDied => [5]
  | .TimedOut => [6]
  | .Kernel m => 7 :: encode_string m
  | .OutOfMemory => [8]

/-- The encoding of `ChildResponse = Result<Response, PrepareError>`:
tag 0 for `Ok`, 1 for `Err`. -/
def encode_child_response : Except PrepareError Response → Bytes
  | .ok r => 0 :: encode_response r
  | .error e => 1 :: encode_prepare_error e

/-- Modelled from the spec: `OOM_PAYLOAD`, the fixed pre-allocated sentinel
written by the allocator-exhaustion handler — the canonical encoding of the
`Err(OutOfMemory)` child response, so that the parent can recognize a
memory-cap kill. -/
def OOM_PAYLOAD : Bytes := encode_child_response (.error .OutOfMemory)

/-- Split off `n` bytes; fails when fewer are available. -/
def take_n (n : Nat) (b : Bytes) : Option (Bytes × Bytes) :=
  if b.length < n then none else some (b.take n, b.drop n)

def decode_u64 (b : Bytes) : Option (Nat × Bytes) :=
  (take_n 8 b).map (fun p => (le_to_nat p.1, p.2))

def decode_bytes (b : Bytes) : Option (Bytes × Bytes) :=
  (decode_u64 b).bind (fun p => take_n p.1 p.2)

def decode_string (b : Bytes) : Option (String × Bytes) :=
  (decode_bytes b).map (fun p => (String.mk (p.1.map Char.ofNat), p.2))

def decode_option {α : Type} (f : Bytes → Option (α × Bytes)) (b : Bytes) :
    Option (Option α × Bytes) :=
  match b with
  | 0 :: rest => some (none, rest)
  | 1 :: rest => (f rest).map (fun p => (some p.1, p.2))
  | _ => none

def decode_i64 (b : Bytes) : Option (Int × Bytes) :=
  (decode_u64 b).map (fun p => (i64_wrap p.1, p.2))

def decode_alloc_stats (b : Bytes) : Option (MemoryAllocationStats × Bytes) :=
  (decode_u64 b).bind (fun p =>
    (decode_u64 p.2).map (fun q => (⟨p.1, q.1⟩, q.2)))

def decode_memory_stats (b : Bytes) : Option (MemoryStats × Bytes) :=
  (decode_option decode_alloc_stats b).bind (fun p =>
    (decode_option decode_i64 p.2).bind (fun q =>
      (decode_u64 q.2).map (fun w => (⟨p.1, q.1, w.1⟩, w.2))))

def decode_response (b : Bytes) : Option (Response × Bytes) :=
  (decode_bytes b).bind (fun p =>
    (decode_memory_stats p.2).map (fun q => (⟨p.1, q.1⟩, q.2)))

def decode_prepare_error (b : Bytes) : Option (PrepareError × Bytes) :=
  match b with
  | 0 :: rest => (decode_string rest).map (fun p => (.Prevalidation p.1, p.2))
  | 1 :: rest => (decode_string rest).map (fun p => (.Preparation p.1, p.2))
  | 2 :: rest => (decode_string rest).map (fun p => (.RuntimeConstruction p.1, p.2))
  | 3 :: rest => (decode_string rest).map (fun p => (.Panic p.1, p.2))
  | 4 :: rest => (decode_string rest).map (fun p => (.IoErr p.1, p.2))
  | 5 :: rest => some (.JobDied, rest)
  | 6 :: rest => some (.TimedOut, rest)
  | 7 :: rest => (decode_string rest).map (fun p => (.Kernel p.1, p.2))
  | 8 :: rest => some (.OutOfMemory, rest)
  | _ => none

def decode_child_response (b : Bytes) : Option (Except PrepareError Response × Bytes) :=
  match b with
  | 0 :: rest => (decode_response rest).map (fun p => (.ok p.1, p.2))
  | 1 :: rest => (decode_prepare_error rest).map (fun p => (.error p.1, p.2))
  | _ => none

/-- The `Result::decode(&mut received_data.as_slice())` call of the parent:
a decode failure is reported as an error message (mapped to `IoErr` by the
caller).  Trailing bytes are ignored. -/
def scale_decode_child_response (b : Bytes) : Except String (Except PrepareError Response) :=
  match decode_child_response b with
  | some p => .ok p.1
  | none => .error "Could not decode ChildResponse"

/-! ### Parent supervisor (`handle_parent_process` and the worker-loop steps
around it) -/

/-- The observable outcome of one parent-side job: the `PrepareResult` reply,
whether the parent attempted the `fs::write` of the artifact, and whether that
write succeeded (the artifact file is in place). -/
structure ParentOutcome where
  reply : Except PrepareError PrepareStats
  artifact_write_attempted : Bool
  artifact_written : Bool
deriving Repr

/-- `handle_parent_process` from `lib.rs`, over explicit inputs:

* `read_result` — the `read_to_end` of the pipe (`error` = I/O failure);
* `status` — the `waitpid` result;
* `usage_after_result` — `getrusage(RUSAGE_CHILDREN)` after reaping;
* `fs_write_result` — the outcome of `fs::write(temp_artifact_dest, artifact)`;
* `decode` — `Result::<Response, PrepareError>::decode` on the received bytes;
* `usage_before`, `timeout` — as in the Rust signature.

Returns `none` when the Rust code panics: the only unguarded panic point is
the `Duration` subtraction `total(after) - total(before)`, which panics on
underflow. -/
def handle_parent_process
    (read_result : Except String Bytes)
    (status : Except Nat WaitStatus)
    (usage_after_result : Except Nat Usage)
    (fs_write_result : Except String Unit)
    (decode : Bytes → Except String (Except PrepareError Response))
    (usage_before : Usage)
    (timeout : Nat) : Option ParentOutcome :=
  match read_result with
  | .error _ => some ⟨.error .JobDied, false, false⟩
  | .ok received_data =>
    match usage_after_result with
    | .error errno => some ⟨.error (error_from_errno "getrusage after" errno), false, false⟩
    | .ok usage_after =>
      if get_total_cpu_usage usage_after < get_total_cpu_usage usage_before then
        none
      else
        let cpu_tv := get_total_cpu_usage usage_after - get_total_cpu_usage usage_before
        if timeout ≤ cpu_tv then
          some ⟨.error .TimedOut, false, false⟩
        else
          match status with
          | .ok (.Exited pid code) =>
            if code = 0 then
              match decode received_data with
              | .error err => some ⟨.error (.IoErr err), false, false⟩
              | .ok (.error e) => some ⟨.error e, false, false⟩
              | .ok (.ok response) =>
                match fs_write_result with
                | .error err => some ⟨.error (.IoErr err), true, false⟩
                | .ok _ =>
                  some ⟨.ok ⟨response.memory_stats, cpu_tv⟩, true, true⟩
            else
              some ⟨.error (.IoErr ("unexpected status from wait: " ++
                wait_status_string (.Exited pid code))), false, false⟩
          | .ok (.Signaled _ _ _) => some ⟨.error .JobDied, false, false⟩
          | .error errno => some ⟨.error (error_from_errno "waitpid" errno), false, false⟩
          | .ok other =>
            some ⟨.error (.IoErr ("unexpected status from wait: " ++
              wait_status_string other)), false, false⟩

/-- One iteration of the worker loop around the fork (from
`worker_entrypoint`): the pre-fork `getrusage(RUSAGE_CHILDREN)` sample and the
`fork` result, each of which yields a `Kernel` reply on failure, then the
parent branch. -/
def worker_job_result
    (usage_before_result : Except Nat Usage)
    (fork_result : Except Nat Unit)
    (read_result : Except String Bytes)
    (status : Except Nat WaitStatus)
    (usage_after_result : Except Nat Usage)
    (fs_write_result : Except String Unit)
    (decode : Bytes → Except String (Except PrepareError Response))
    (timeout : Nat) : Option ParentOutcome :=
  match usage_before_result with
  | .error errno => some ⟨.error (error_from_errno "getrusage before" errno), false, false⟩
  | .ok usage_before =>
    match fork_result with
    | .error errno => some ⟨.error (error_from_errno "fork" errno), false, false⟩
    | .ok _ =>
      handle_parent_process read_result status usage_after_result fs_write_result decode
        usage_before timeout

/-! ### Child process (`handle_child_process`) -/

/-- `PrepareJobKind` from `polkadot-node-core-pvf-common` (used by `lib.rs`):
`Compilation` (plain prepare) or `Prechecking`. -/
inductive PrepareJobKind where
  | Compilation
  | Prechecking
deriving DecidableEq, Repr

/-- `prepare_artifact` from `lib.rs`: `prevalidate` failure maps to
`Prevalidation`, `prepare` failure to `Preparation`; the compiler itself is an
opaque collaborator, so its two stages enter as explicit results. -/
def prepare_artifact {β : Type} (prevalidate_result : Except String β)
    (prepare_fn : β → Except String Bytes) : Except PrepareError Bytes :=
  match prevalidate_result with
  | .error err => .error (.Prevalidation err)
  | .ok blob =>
    match prepare_fn blob with
    | .ok compiled_artifact => .ok compiled_artifact
    | .error err => .error (.Preparation err)

/-- `runtime_construction_check` from `lib.rs`: maps the opaque probe's
failure to `RuntimeConstruction`. -/
def runtime_construction_check (construction_result : Except String Unit) :
    Except PrepareError Unit :=
  match construction_result with
  | .ok _ => .ok ()
  | .error err => .error (.RuntimeConstruction err)

/-- The closure run on the compilation thread (`lib.rs` lines 372-391):
`prepare_artifact`, then pairing with the thread max-RSS probe (Linux), then —
for `Prechecking` only — the runtime-construction check on the artifact. -/
def prepare_thread_body {β : Type} (prevalidate_result : Except String β)
    (prepare_fn : β → Except String Bytes) (max_rss : Int)
    (prepare_job_kind : PrepareJobKind)
    (construction : Bytes → Except String Unit) :
    Except PrepareError (Bytes × Int) :=
  let result := (prepare_artifact prevalidate_result prepare_fn).map (fun a => (a, max_rss))
  match prepare_job_kind with
  | .Prechecking =>
    result.bind (fun output =>
      (runtime_construction_check (construction output.1)).map (fun _ => output))
  | .Compilation => result

/-- The response assembly of `handle_child_process` after joining the
compilation thread (`lib.rs` lines 402-448).  `join_result` is the thread
join: `error` means the thread panicked (its payload stringified, sent as
`Panic`); on success the child reads `end_memory_tracking`, stops the tracker
thread and assembles `MemoryStats` — only in the `Ok` arm.  The peak tracked
allocation is clamped: `if peak_alloc > 0 { peak_alloc as u64 } else { 0 }`. -/
def handle_child_process_response
    (join_result : Except String (Except PrepareError (Bytes × Int)))
    (peak_alloc : Int)
    (memory_tracker_stats : Option MemoryAllocationStats)
    (extract_max_rss : Int → Option Int) :
    Except PrepareError Response :=
  match join_result with
  | .error panic_payload => .error (.Panic panic_payload)
  | .ok result =>
    match result with
    | .error err => .error err
    | .ok ok =>
      .ok { artifact := ok.1,
            memory_stats :=
              { memory_tracker_stats := memory_tracker_stats,
                max_rss := extract_max_rss ok.2,
                peak_tracked_alloc := if 0 < peak_alloc then peak_alloc.toNat else 0 } }

/-- The child's full pipe response as a function of the opaque collaborators'
results: thread body composed with the response assembly. -/
def child_pipe_response {β : Type} (prevalidate_result : Except String β)
    (prepare_fn : β → Except String Bytes) (max_rss : Int)
    (prepare_job_kind : PrepareJobKind)
    (construction : Bytes → Except String Unit)
    (panicked : Option String) (peak_alloc : Int)
    (memory_tracker_stats : Option MemoryAllocationStats)
    (extract_max_rss : Int → Option Int) : Except PrepareError Response :=
  let join_result : Except String (Except PrepareError (Bytes × Int)) :=
    match panicked with
    | some payload => .error payload
    | none =>
      .ok (prepare_thread_body prevalidate_result prepare_fn max_rss prepare_job_kind
        construction)
  handle_child_process_response join_result peak_alloc memory_tracker_stats extract_max_rss

/-! ### Memory tracking installation and the OOM escape handler -/

/-- The `start_memory_tracking` call site in `handle_child_process`
(`lib.rs` line 355-356) passes `stream.as_raw_fd()` as the fd the OOM handler
is bound to.  `stream` is not a parameter of `handle_child_process` — the only
`stream` in the file is the host socket of `worker_entrypoint` (dropped in the
child branch before the call), so the identifier is unbound there and the
crate does not compile; reading it as that socket, the fd passed is the socket
fd, not the pipe's write fd. -/
def child_tracking_fd (socket_fd : Nat) (pipe_write_fd : Nat) : Nat := socket_fd

/-- Modelled from the spec: the handler is "the OOM escape of §4.2 bound to
the pipe fd", i.e. `start_tracking` must receive the pipe's write fd. -/
def spec_tracking_fd (socket_fd : Nat) (pipe_write_fd : Nat) : Nat := pipe_write_fd

/-- The `prechecking_max_memory` limit conversion at the call site:
`u64::try_into::<isize>()`, with out-of-range values replaced by 0. -/
def prechecking_limit (v : Option Nat) : Option Int :=
  v.map (fun n => if n < 2 ^ 63 then (n : Int) else 0)

/-- The syscalls performed by the `on_exhaust` closure installed by
`start_memory_tracking` (Linux branch, `lib.rs` lines 125-127):
`SYS_write(fd, OOM_PAYLOAD)`, `SYS_close(fd)`, `SYS_exit(1)`. -/
structure OomHandlerEffect where
  written_fd : Nat
  written_bytes : Bytes
  closed_fd : Nat
  exit_code : Int
deriving DecidableEq, Repr

/-- The effect of the OOM escape handler when invoked on the fd it was bound
to: write the fixed sentinel to that fd, close it, exit with code 1. -/
def oom_handler (fd : Nat) : OomHandlerEffect :=
  { written_fd := fd, written_bytes := OOM_PAYLOAD, closed_fd := fd, exit_code := 1 }

/-! ### Concrete fixtures -/

/-- An all-zero rusage sample. -/
def usage_zero : Usage := ⟨0, 0, 0, 0⟩

/-- A small rusage sample: 10 ms of user time. -/
def usage_small : Usage := ⟨0, 10000, 0, 0⟩

/-- A concrete successful child response. -/
def sample_response : Response :=
  { artifact := [1, 2, 3],
    memory_stats := { memory_tracker_stats := none, max_rss := none, peak_tracked_alloc := 0 } }

/-- The encoded pipe payload of `sample_response`. -/
def sample_ok_payload : Bytes := encode_child_response (.ok sample_response)

/-- The child response assembled from artifact `[2, 3]`, thread max-RSS 4 and
raw peak allocation 7. -/
def sample_probe_response : Response :=
  { artifact := [2, 3],
    memory_stats :=
      { memory_tracker_stats := none, max_rss := some 4, peak_tracked_alloc := 7 } }

example : scale_decode_child_response sample_ok_payload = .ok (.ok sample_response) := by rfl

example : scale_decode_child_response [] = .error "Could not decode ChildResponse" := by rfl

example : OOM_PAYLOAD = [1, 8] := by rfl

example : get_total_cpu_usage usage_small = 10000000 := by rfl

/-! ### Inversion helpers for the parent supervisor -/

/-- Inversion of the parent's success path: an `Ok` reply forces a successful
pipe read, a successful after-sample, wait status `Exited(_, 0)`, a payload
decoding to `Ok(Response)`, a successful artifact write, a non-panicking and
in-budget CPU delta, and pins the reported stats. -/
theorem parent_ok_inversion
    (rd : Except String Bytes) (st : Except Nat WaitStatus) (ua : Except Nat Usage)
    (fw : Except String Unit) (dec : Bytes → Except String (Except PrepareError Response))
    (ub : Usage) (t : Nat) (o : ParentOutcome) (stats : PrepareStats)
    (h : handle_parent_process rd st ua fw dec ub t = some o)
    (hr : o.reply = .ok stats) :
    ∃ data u pid resp,
      rd = .ok data ∧ ua = .ok u ∧ st = .ok (.Exited pid 0) ∧
      dec data = .ok (.ok resp) ∧ fw = .ok () ∧
      get_total_cpu_usage ub ≤ get_total_cpu_usage u ∧
      get_total_cpu_usage u - get_total_cpu_usage ub < t ∧
      stats = ⟨resp.memory_stats, get_total_cpu_usage u - get_total_cpu_usage ub⟩ ∧
      o = ⟨.ok stats, true, true⟩ := by
  unfold handle_parent_process at h
  cases rd with
  | error e =>
    simp only [Option.some.injEq] at h
    rw [← h] at hr
    simp at hr
  | ok data =>
    cases ua with
    | error errno =>
      simp only [Option.some.injEq] at h
      rw [← h] at hr
      simp at hr
    | ok u =>
      simp only at h
      split at h
      · exact absurd h (by simp)
      · split at h
        · simp only [Option.some.injEq] at h
          rw [← h] at hr
          simp at hr
        · split at h
          case _ pid code =>
            split at h
            case isTrue hcode =>
              split at h
              case _ msg heq =>
                simp only [Option.some.injEq] at h
                rw [← h] at hr
                simp at hr
              case _ e heq =>
                simp only [Option.some.injEq] at h
                rw [← h] at hr
                simp at hr
              case _ resp heq =>
                split at h
                case _ msg =>
                  simp only [Option.some.injEq] at h
                  rw [← h] at hr
                  simp at hr
                case _ =>
                  simp only [Option.some.injEq] at h
                  subst hcode
                  refine ⟨data, u, pid, resp, rfl, rfl, rfl, heq, rfl, by omega, by omega, ?_, ?_⟩
                  · rw [← h] at hr
                    simp only at hr
                    exact (Except.ok.inj hr).symm
                  · rw [← h]
                    rw [← h] at hr
                    simp only at hr
                    rw [Except.ok.inj hr]
            case isFalse hcode =>
              simp only [Option.some.injEq] at h
              rw [← h] at hr
              simp at hr
          case _ =>
            simp only [Option.some.injEq] at h
            rw [← h] at hr
            simp at hr
          case _ =>
            simp only [Option.some.injEq] at h
            rw [← h] at hr
            simp at hr
          case _ =>
            simp only [Option.some.injEq] at h
            rw [← h] at hr
            simp at hr

/-- Inversion of the artifact-write attempt: the parent calls `fs::write` only
after a successful read, a successful after-sample, a passed CPU-time check,
wait status `Exited(_, 0)` and a payload decoding to `Ok(Response)`. -/
theorem parent_attempt_inversion
    (rd : Except String Bytes) (st : Except Nat WaitStatus) (ua : Except Nat Usage)
    (fw : Except String Unit) (dec : Bytes → Except String (Except PrepareError Response))
    (ub : Usage) (t : Nat) (o : ParentOutcome)
    (h : handle_parent_process rd st ua fw dec ub t = some o)
    (ha : o.artifact_write_attempted = true) :
    ∃ data u pid resp,
      rd = .ok data ∧ ua = .ok u ∧ st = .ok (.Exited pid 0) ∧
      dec data = .ok (.ok resp) ∧
      get_total_cpu_usage ub ≤ get_total_cpu_usage u ∧
      get_total_cpu_usage u - get_total_cpu_usage ub < t := by
  unfold handle_parent_process at h
  cases rd with
  | error e =>
    simp only [Option.some.injEq] at h
    rw [← h] at ha
    simp at ha
  | ok data =>
    cases ua with
    | error errno =>
      simp only [Option.some.injEq] at h
      rw [← h] at ha
      simp at ha
    | ok u =>
      simp only at h
      split at h
      · exact absurd h (by simp)
      · split at h
        · simp only [Option.some.injEq] at h
          rw [← h] at ha
          simp at ha
        · split at h
          case _ pid code =>
            split at h
            case isTrue hcode =>
              split at h
              case _ msg heq =>
                simp only [Option.some.injEq] at h
                rw [← h] at ha
                simp at ha
              case _ e heq =>
                simp only [Option.some.injEq] at h
                rw [← h] at ha
                simp at ha
              case _ resp heq =>
                subst hcode
                exact ⟨data, u, pid, resp, rfl, rfl, rfl, heq, by omega, by omega⟩
            case isFalse hcode =>
              simp only [Option.some.injEq] at h
              rw [← h] at ha
              simp at ha
          case _ =>
            simp only [Option.some.injEq] at h
            rw [← h] at ha
            simp at ha
          case _ =>
            simp only [Option.some.injEq] at h
            rw [← h] at ha
            simp at ha
          case _ =>
            simp only [Option.some.injEq] at h
            rw [← h] at ha
            simp at ha

/-- The artifact is in place exactly when the reply is `Ok`: inversion of the
`artifact_written` flag. -/
theorem parent_written_iff_ok
    (rd : Except String Bytes) (st : Except Nat WaitStatus) (ua : Except Nat Usage)
    (fw : Except String Unit) (dec : Bytes → Except String (Except PrepareError Response))
    (ub : Usage) (t : Nat) (o : ParentOutcome)
    (h : handle_parent_process rd st ua fw dec ub t = some o) :
    o.artifact_written = true ↔ ∃ stats, o.reply = .ok stats := by
  unfold handle_parent_process at h
  cases rd with
  | error e =>
    simp only [Option.some.injEq] at h
    rw [← h]
    simp
  | ok data =>
    cases ua with
    | error errno =>
      simp only [Option.some.injEq] at h
      rw [← h]
      simp
    | ok u =>
      simp only at h
      split at h
      · exact absurd h (by simp)
      · split at h
        · simp only [Option.some.injEq] at h
          rw [← h]
          simp
        · split at h
          case _ pid code =>
            split at h
            case isTrue hcode =>
              split at h
              case _ msg heq =>
                simp only [Option.some.injEq] at h
                rw [← h]
                simp
              case _ e heq =>
                simp only [Option.some.injEq] at h
                rw [← h]
                simp
              case _ resp heq =>
                split at h
                case _ msg =>
                  simp only [Option.some.injEq] at h
                  rw [← h]
                  simp
                case _ =>
                  simp only [Option.some.injEq] at h
                  rw [← h]
                  simp
            case isFalse hcode =>
              simp only [Option.some.injEq] at h
              rw [← h]
              simp
          case _ =>
            simp only [Option.some.injEq] at h
            rw [← h]
            simp
          case _ =>
            simp only [Option.some.injEq] at h
            rw [← h]
            simp
          case _ =>
            simp only [Option.some.injEq] at h
            rw [← h]
            simp

/-- The parent never panics when the after-sample dominates the before-sample
(`RUSAGE_CHILDREN` is monotone): the only panic point is the `Duration`
subtraction. -/
theorem parent_no_panic
    (rd : Except String Bytes) (st : Except Nat WaitStatus) (ua : Except Nat Usage)
    (fw : Except String Unit) (dec : Bytes → Except String (Except PrepareError Response))
    (ub : Usage) (t : Nat)
    (hmono : ∀ u, ua = .ok u → get_total_cpu_usage ub ≤ get_total_cpu_usage u) :
    (handle_parent_process rd st ua fw dec ub t).isSome = true := by
  unfold handle_parent_process
  cases rd with
  | error e => rfl
  | ok data =>
    cases ua with
    | error errno => rfl
    | ok u =>
      simp only
      have hle := hmono u rfl
      split
      · omega
      · split
        · rfl
        · split
          case _ pid code =>
            split
            · split
              · rfl
              · rfl
              · split
                · rfl
                · rfl
            · rfl
          case _ => rfl
          case _ => rfl
          case _ => rfl

/-! ### Claims -/

/-- C1: the claim says an over-cap job yields the distinct OOM-classified
error and no artifact.  The code falsifies the first half: the OOM escape
handler terminates the child with `SYS_exit(1)` (`lib.rs` line 127), and
`handle_parent_process` decodes the pipe payload only on `Exited(_, 0)`
(`lib.rs` line 503), so the OOM-killed child — sentinel payload and all —
lands in the catch-all wait-status arm and the worker replies `IoErr`
("unexpected status from wait"), never the distinct OOM kind.  The
"no artifact written" half does hold (`artifact_written = false`). -/
theorem claim_c1_oom_job_replies_ioerr_not_oom :
    handle_parent_process (.ok OOM_PAYLOAD) (.ok (.Exited 42 1)) (.ok usage_small)
      (.ok ()) scale_decode_child_response usage_zero 2000000000 =
      some ⟨.error (.IoErr ("unexpected status from wait: " ++
        wait_status_string (.Exited 42 1))), false, false⟩ ∧
    PrepareError.IoErr ("unexpected status from wait: " ++
      wait_status_string (.Exited 42 1)) ≠ .OutOfMemory ∧
    scale_decode_child_response OOM_PAYLOAD = .ok (.error .OutOfMemory) :=
  ⟨rfl, fun h => PrepareError.noConfusion h, rfl⟩

/-- C2: the claim says the `on_exhaust` handler installed by the child is
bound to the anonymous pipe's write fd.  In the source the call site passes
`stream.as_raw_fd()` — an identifier that is not in scope inside
`handle_child_process` (the only `stream` in the file is the host socket of
`worker_entrypoint`, dropped in the child branch), so the crate does not even
compile; read as that socket, the handler writes the sentinel to the socket
fd, not the pipe's write fd.  The handler body itself does match the claim:
it writes the fixed sentinel to the fd it was given, closes it, and exits. -/
theorem claim_c2_handler_bound_to_socket_fd_not_pipe_fd :
    child_tracking_fd 3 5 = 3 ∧
    spec_tracking_fd 3 5 = 5 ∧
    child_tracking_fd 3 5 ≠ spec_tracking_fd 3 5 ∧
    (oom_handler (child_tracking_fd 3 5)).written_fd ≠ 5 ∧
    (oom_handler (spec_tracking_fd 3 5)).written_bytes = OOM_PAYLOAD ∧
    (oom_handler (spec_tracking_fd 3 5)).closed_fd = 5 ∧
    (oom_handler (spec_tracking_fd 3 5)).exit_code = 1 :=
  ⟨rfl, rfl, by decide, by decide, rfl, rfl, rfl⟩

/-- C3: the parent returns `Ok` only when the wait status is `Exited(_, 0)`
and the pipe payload decodes to a well-formed `Ok(Response)`; in particular a
child that exits 0 with no pipe output gets `IoErr` (decode of the empty
payload fails), never `Ok`. -/
theorem claim_c3_ok_requires_exit0_and_wellformed_payload :
    (∀ (rd : Except String Bytes) (st : Except Nat WaitStatus) (ua : Except Nat Usage)
       (fw : Except String Unit)
       (dec : Bytes → Except String (Except PrepareError Response))
       (ub : Usage) (t : Nat) (o : ParentOutcome) (stats : PrepareStats),
       handle_parent_process rd st ua fw dec ub t = some o →
       o.reply = .ok stats →
       (∃ pid, st = .ok (.Exited pid 0)) ∧
       (∃ data resp, rd = .ok data ∧ dec data = .ok (.ok resp))) ∧
    handle_parent_process (.ok []) (.ok (.Exited 7 0)) (.ok usage_small) (.ok ())
      scale_decode_child_response usage_zero 1000000000 =
      some ⟨.error (.IoErr "Could not decode ChildResponse"), false, false⟩ := by
  constructor
  · intro rd st ua fw dec ub t o stats h hr
    obtain ⟨data, u, pid, resp, hrd, hua, hst, hdec, -, -, -, -, -⟩ :=
      parent_ok_inversion rd st ua fw dec ub t o stats h hr
    exact ⟨⟨pid, hst⟩, ⟨data, resp, hrd, hdec⟩⟩
  · rfl

/-- Witness for C3: a concrete run with exit 0 and a well-formed payload does
return `Ok`, and the universal part applied to it recovers both facts. -/
theorem claim_c3_witness :
    (∃ pid, (Except.ok (WaitStatus.Exited 7 0) : Except Nat WaitStatus) =
      .ok (.Exited pid 0)) ∧
    (∃ data resp, (Except.ok sample_ok_payload : Except String Bytes) = .ok data ∧
      scale_decode_child_response data = .ok (.ok resp)) :=
  claim_c3_ok_requires_exit0_and_wellformed_payload.1
    (.ok sample_ok_payload) (.ok (.Exited 7 0)) (.ok usage_small) (.ok ())
    scale_decode_child_response usage_zero 1000000000
    ⟨.ok ⟨sample_response.memory_stats, 10000000⟩, true, true⟩
    ⟨sample_response.memory_stats, 10000000⟩ rfl rfl

/-- C4: whenever the measured CPU-time delta reaches the preparation timeout,
the parent replies `TimedOut`, regardless of the wait status and of whatever
payload the child sent on the pipe (and no artifact is written). -/
theorem claim_c4_cpu_over_timeout_is_timedout :
    ∀ (data : Bytes) (st : Except Nat WaitStatus) (ua : Usage)
      (fw : Except String Unit)
      (dec : Bytes → Except String (Except PrepareError Response))
      (ub : Usage) (t : Nat),
      get_total_cpu_usage ub ≤ get_total_cpu_usage ua →
      t ≤ get_total_cpu_usage ua - get_total_cpu_usage ub →
      handle_parent_process (.ok data) st (.ok ua) fw dec ub t =
        some ⟨.error .TimedOut, false, false⟩ := by
  intro data st ua fw dec ub t hle ht
  unfold handle_parent_process
  simp only
  rw [if_neg (by omega), if_pos ht]

/-- Witness for C4: a signaled child that sent a valid `Ok` payload but burnt
10 ms of CPU against a 1 µs timeout gets `TimedOut`. -/
theorem claim_c4_witness :
    handle_parent_process (.ok sample_ok_payload) (.ok (.Signaled 9 9 false))
      (.ok usage_small) (.ok ()) scale_decode_child_response usage_zero 1000 =
      some ⟨.error .TimedOut, false, false⟩ :=
  claim_c4_cpu_over_timeout_is_timedout sample_ok_payload (.ok (.Signaled 9 9 false))
    usage_small (.ok ()) scale_decode_child_response usage_zero 1000
    (by decide) (by decide)

/-- C5: the parent attempts the artifact write only after the CPU-time check
has passed, with wait status `Exited(_, 0)` and a payload decoding to
`Ok(Response)`; and the artifact file is in place iff the reply is `Ok`
(`fs::write` is modelled all-or-nothing: a failed write leaves no artifact). -/
theorem claim_c5_artifact_iff_ok :
    ∀ (rd : Except String Bytes) (st : Except Nat WaitStatus) (ua : Except Nat Usage)
      (fw : Except String Unit)
      (dec : Bytes → Except String (Except PrepareError Response))
      (ub : Usage) (t : Nat) (o : ParentOutcome),
      handle_parent_process rd st ua fw dec ub t = some o →
      (o.artifact_write_attempted = true →
        ∃ data u pid resp, rd = .ok data ∧ ua = .ok u ∧ st = .ok (.Exited pid 0) ∧
          dec data = .ok (.ok resp) ∧
          get_total_cpu_usage u - get_total_cpu_usage ub < t) ∧
      (o.artifact_written = true ↔ ∃ stats, o.reply = .ok stats) := by
  intro rd st ua fw dec ub t o h
  constructor
  · intro ha
    obtain ⟨data, u, pid, resp, hrd, hua, hst, hdec, -, hlt⟩ :=
      parent_attempt_inversion rd st ua fw dec ub t o h ha
    exact ⟨data, u, pid, resp, hrd, hua, hst, hdec, hlt⟩
  · exact parent_written_iff_ok rd st ua fw dec ub t o h

/-- Witness for C5, at a concrete successful run. -/
theorem claim_c5_witness :
    ((⟨.ok ⟨sample_response.memory_stats, 10000000⟩, true, true⟩ :
        ParentOutcome).artifact_write_attempted = true →
      ∃ data u pid resp,
        (Except.ok sample_ok_payload : Except String Bytes) = .ok data ∧
        (Except.ok usage_small : Except Nat Usage) = .ok u ∧
        (Except.ok (WaitStatus.Exited 7 0) : Except Nat WaitStatus) =
          .ok (.Exited pid 0) ∧
        scale_decode_child_response data = .ok (.ok resp) ∧
        get_total_cpu_usage u - get_total_cpu_usage usage_zero < 1000000000) ∧
    ((⟨.ok ⟨sample_response.memory_stats, 10000000⟩, true, true⟩ :
        ParentOutcome).artifact_written = true ↔
      ∃ stats, (⟨.ok ⟨sample_response.memory_stats, 10000000⟩, true, true⟩ :
        ParentOutcome).reply = .ok stats) :=
  claim_c5_artifact_iff_ok (.ok sample_ok_payload) (.ok (.Exited 7 0)) (.ok usage_small)
    (.ok ()) scale_decode_child_response usage_zero 1000000000
    ⟨.ok ⟨sample_response.memory_stats, 10000000⟩, true, true⟩ rfl

/-- C6 counterexample: the claim also asserts `stats.cpu_time_elapsed > 0`,
but the code never enforces positivity — a job that exits 0 with a valid
payload while the two rusage samples are equal is classified `Ok` with
`cpu_time_elapsed = 0`. -/
theorem claim_c6_counterexample :
    handle_parent_process (.ok sample_ok_payload) (.ok (.Exited 7 0)) (.ok usage_zero)
      (.ok ()) scale_decode_child_response usage_zero 1000000000 =
      some ⟨.ok ⟨sample_response.memory_stats, 0⟩, true, true⟩ ∧
    ¬ 0 < (0 : Nat) :=
  ⟨rfl, by omega⟩

/-- C6 (amended): every `Ok(PrepareStats)` reply has `cpu_time_elapsed`
strictly below the preparation timeout, and it equals the parent-measured
rusage delta (hence is ≥ 0, but not necessarily > 0). -/
theorem claim_c6_cpu_elapsed_below_timeout :
    ∀ (rd : Except String Bytes) (st : Except Nat WaitStatus) (ua : Except Nat Usage)
      (fw : Except String Unit)
      (dec : Bytes → Except String (Except PrepareError Response))
      (ub : Usage) (t : Nat) (o : ParentOutcome) (stats : PrepareStats),
      handle_parent_process rd st ua fw dec ub t = some o →
      o.reply = .ok stats →
      stats.cpu_time_elapsed < t ∧
      ∃ u, ua = .ok u ∧
        stats.cpu_time_elapsed = get_total_cpu_usage u - get_total_cpu_usage ub := by
  intro rd st ua fw dec ub t o stats h hr
  obtain ⟨data, u, pid, resp, -, hua, -, -, -, -, hlt, hstats, -⟩ :=
    parent_ok_inversion rd st ua fw dec ub t o stats h hr
  subst hstats
  exact ⟨hlt, u, hua, rfl⟩

/-- Witness for the amended C6, at a concrete successful run. -/
theorem claim_c6_witness :
    (10000000 : Nat) < 1000000000 ∧
    ∃ u, (Except.ok usage_small : Except Nat Usage) = .ok u ∧
      (10000000 : Nat) = get_total_cpu_usage u - get_total_cpu_usage usage_zero :=
  claim_c6_cpu_elapsed_below_timeout (.ok sample_ok_payload) (.ok (.Exited 7 0))
    (.ok usage_small) (.ok ()) scale_decode_child_response usage_zero 1000000000
    ⟨.ok ⟨sample_response.memory_stats, 10000000⟩, true, true⟩
    ⟨sample_response.memory_stats, 10000000⟩ rfl rfl

/-- C7: as long as `RUSAGE_CHILDREN` is monotone (the after-sample dominates
the before-sample, which the child cannot influence), the parent's per-job
handling never panics: for every payload, exit code, signal, decode result and
filesystem outcome it produces a classified reply. -/
theorem claim_c7_parent_always_replies :
    ∀ (ubr : Except Nat Usage) (fkr : Except Nat Unit) (rd : Except String Bytes)
      (st : Except Nat WaitStatus) (uar : Except Nat Usage) (fw : Except String Unit)
      (dec : Bytes → Except String (Except PrepareError Response)) (t : Nat),
      (∀ ub ua, ubr = .ok ub → uar = .ok ua →
        get_total_cpu_usage ub ≤ get_total_cpu_usage ua) →
      (worker_job_result ubr fkr rd st uar fw dec t).isSome = true := by
  intro ubr fkr rd st uar fw dec t hmono
  unfold worker_job_result
  cases ubr with
  | error e => rfl
  | ok ub =>
    cases fkr with
    | error e => rfl
    | ok _ =>
      exact parent_no_panic rd st uar fw dec ub t (fun u hu => hmono ub u rfl hu)

/-- Witness for C7: a hostile concrete child (garbage payload, stopped status)
still gets a classified reply. -/
theorem claim_c7_witness :
    (worker_job_result (.ok usage_zero) (.ok ()) (.ok [255, 254]) (.ok (.Stopped 3 19))
      (.ok usage_small) (.error "disk full") scale_decode_child_response
      1000000000).isSome = true :=
  claim_c7_parent_always_replies (.ok usage_zero) (.ok ()) (.ok [255, 254])
    (.ok (.Stopped 3 19)) (.ok usage_small) (.error "disk full")
    scale_decode_child_response 1000000000
    (fun ub ua hub hua => by
      rw [← Except.ok.inj hub, ← Except.ok.inj hua]
      decide)

/-- C8: CPU accounting.  (a) For any rusage sample whose fields are
non-negative and whose total stays inside the `i64` range (so no wrapping
occurs), the computed microsecond total is
`(user_sec + system_sec) * 10^6 + user_usec + system_usec`; (b) a reply `Ok`
carries exactly the subtraction of the before-fork sample from the after-reap
sample; (c) a failing before-sample and (d) a failing after-sample each make
the job fail, with (e) `error_from_errno` producing a `Kernel` error. -/
theorem claim_c8_cpu_accounting :
    (∀ r : Usage, 0 ≤ r.user_sec → 0 ≤ r.user_usec → 0 ≤ r.system_sec →
      0 ≤ r.system_usec →
      (r.user_sec + r.system_sec) * 1000000 + (r.user_usec + r.system_usec) < 2 ^ 63 →
      (total_cpu_micros r : Int) =
        (r.user_sec + r.system_sec) * 1000000 + r.user_usec + r.system_usec) ∧
    (∀ (rd : Except String Bytes) (st : Except Nat WaitStatus) (ua : Except Nat Usage)
       (fw : Except String Unit)
       (dec : Bytes → Except String (Except PrepareError Response))
       (ub : Usage) (t : Nat) (o : ParentOutcome) (stats : PrepareStats),
       handle_parent_process rd st ua fw dec ub t = some o →
       o.reply = .ok stats →
       ∃ u, ua = .ok u ∧
         stats.cpu_time_elapsed = get_total_cpu_usage u - get_total_cpu_usage ub) ∧
    (∀ (errno : Nat) (fkr : Except Nat Unit) (rd : Except String Bytes)
       (st : Except Nat WaitStatus) (uar : Except Nat Usage) (fw : Except String Unit)
       (dec : Bytes → Except String (Except PrepareError Response)) (t : Nat),
       worker_job_result (.error errno) fkr rd st uar fw dec t =
         some ⟨.error (error_from_errno "getrusage before" errno), false, false⟩) ∧
    (∀ (errno : Nat) (data : Bytes) (st : Except Nat WaitStatus)
       (fw : Except String Unit)
       (dec : Bytes → Except String (Except PrepareError Response))
       (ub : Usage) (t : Nat),
       handle_parent_process (.ok data) st (.error errno) fw dec ub t =
         some ⟨.error (error_from_errno "getrusage after" errno), false, false⟩) ∧
    (∀ (context : String) (errno : Nat),
       ∃ msg, error_from_errno context errno = .Kernel msg) := by
  refine ⟨?_, ?_, ?_, ?_, ?_⟩
  · intro r h1 h2 h3 h4 h5
    unfold total_cpu_micros as_u64 i64_wrap
    omega
  · intro rd st ua fw dec ub t o stats h hr
    obtain ⟨data, u, pid, resp, -, hua, -, -, -, -, -, hstats, -⟩ :=
      parent_ok_inversion rd st ua fw dec ub t o stats h hr
    subst hstats
    exact ⟨u, hua, rfl⟩
  · intro errno fkr rd st uar fw dec t
    rfl
  · intro errno data st fw dec ub t
    rfl
  · intro context errno
    exact ⟨context ++ ": " ++ toString errno, rfl⟩

/-- Witness for C8, instantiating every part at concrete inputs. -/
theorem claim_c8_witness :
    (total_cpu_micros ⟨2, 5, 1, 7⟩ : Int) = (2 + 1) * 1000000 + 5 + 7 ∧
    (∃ u, (Except.ok usage_small : Except Nat Usage) = .ok u ∧
      (10000000 : Nat) = get_total_cpu_usage u - get_total_cpu_usage usage_zero) ∧
    worker_job_result (.error 14) (.ok ()) (.ok []) (.ok (.Exited 1 0)) (.ok usage_zero)
      (.ok ()) scale_decode_child_response 1000000000 =
      some ⟨.error (error_from_errno "getrusage before" 14), false, false⟩ ∧
    handle_parent_process (.ok []) (.ok (.Exited 1 0)) (.error 14) (.ok ())
      scale_decode_child_response usage_zero 1000000000 =
      some ⟨.error (error_from_errno "getrusage after" 14), false, false⟩ ∧
    ∃ msg, error_from_errno "getrusage before" 14 = .Kernel msg := by
  refine ⟨?_, ?_, ?_, ?_, ?_⟩
  · exact claim_c8_cpu_accounting.1 ⟨2, 5, 1, 7⟩ (by decide) (by decide) (by decide)
      (by decide) (by decide)
  · exact claim_c8_cpu_accounting.2.1 (.ok sample_ok_payload) (.ok (.Exited 7 0))
      (.ok usage_small) (.ok ()) scale_decode_child_response usage_zero 1000000000
      ⟨.ok ⟨sample_response.memory_stats, 10000000⟩, true, true⟩
      ⟨sample_response.memory_stats, 10000000⟩ rfl rfl
  · exact claim_c8_cpu_accounting.2.2.1 14 (.ok ()) (.ok []) (.ok (.Exited 1 0))
      (.ok usage_zero) (.ok ()) scale_decode_child_response 1000000000
  · exact claim_c8_cpu_accounting.2.2.2.1 14 [] (.ok (.Exited 1 0)) (.ok ())
      scale_decode_child_response usage_zero 1000000000
  · exact claim_c8_cpu_accounting.2.2.2.2 "getrusage before" 14

/-- C9: on a successful child response the reported `peak_tracked_alloc` is
the clamped `end_memory_tracking` peak: 0 when the raw peak is negative or
zero, the raw peak itself otherwise (hence always non-negative). -/
theorem claim_c9_peak_tracked_alloc_clamped :
    ∀ (artifact : Bytes) (max_rss : Int) (peak_alloc : Int)
      (tr : Option MemoryAllocationStats) (ex : Int → Option Int),
      ∃ resp,
        handle_child_process_response (.ok (.ok (artifact, max_rss))) peak_alloc tr ex =
          .ok resp ∧
        (peak_alloc ≤ 0 → resp.memory_stats.peak_tracked_alloc = 0) ∧
        (0 < peak_alloc → (resp.memory_stats.peak_tracked_alloc : Int) = peak_alloc) ∧
        0 ≤ (resp.memory_stats.peak_tracked_alloc : Int) := by
  intro artifact max_rss peak_alloc tr ex
  refine ⟨_, rfl, ?_, ?_, by positivity⟩
  · intro hle
    simp only [handle_child_process_response]
    rw [if_neg (by omega)]
  · intro hpos
    simp only [handle_child_process_response]
    rw [if_pos hpos]
    omega

/-- Witness for C9: a negative raw peak reports 0. -/
theorem claim_c9_witness :
    ∃ resp,
      handle_child_process_response (.ok (.ok (([1] : Bytes), (0 : Int)))) (-5) none
        (fun _ => none) = .ok resp ∧
      resp.memory_stats.peak_tracked_alloc = 0 := by
  obtain ⟨resp, h1, h2, -, -⟩ :=
    claim_c9_peak_tracked_alloc_clamped [1] 0 (-5) none (fun _ => none)
  exact ⟨resp, h1, h2 (by omega)⟩

/-- C10: a failed compilation thread propagates as exactly that
`Err(PrepareError)` on the pipe, with no memory statistics attached; a
successful pipe response conversely requires the thread to have succeeded
(and, for `Prechecking`, a failing runtime-construction probe turns the
thread result into `Err(RuntimeConstruction)`). -/
theorem claim_c10_error_response_carries_no_stats :
    (∀ (e : PrepareError) (peak : Int) (tr : Option MemoryAllocationStats)
       (ex : Int → Option Int),
       handle_child_process_response (.ok (.error e)) peak tr ex = .error e) ∧
    (∀ (jr : Except String (Except PrepareError (Bytes × Int))) (peak : Int)
       (tr : Option MemoryAllocationStats) (ex : Int → Option Int) (resp : Response),
       handle_child_process_response jr peak tr ex = .ok resp →
       ∃ a m, jr = .ok (.ok (a, m)) ∧ resp.artifact = a ∧
         resp.memory_stats =
           ⟨tr, ex m, if 0 < peak then peak.toNat else 0⟩) ∧
    (∀ (β : Type) (pv : Except String β) (pf : β → Except String Bytes) (m : Int)
       (c : Bytes → Except String Unit) (a : Bytes) (msg : String),
       prepare_artifact pv pf = .ok a → c a = .error msg →
       prepare_thread_body pv pf m .Prechecking c =
         .error (.RuntimeConstruction msg)) := by
  refine ⟨?_, ?_, ?_⟩
  · intro e peak tr ex
    rfl
  · intro jr peak tr ex resp h
    cases jr with
    | error p => exact absurd h (by simp [handle_child_process_response])
    | ok result =>
      cases result with
      | error e => exact absurd h (by simp [handle_child_process_response])
      | ok ok =>
        obtain ⟨a, m⟩ := ok
        refine ⟨a, m, rfl, ?_, ?_⟩
        · simp only [handle_child_process_response] at h
          rw [← Except.ok.inj h]
        · simp only [handle_child_process_response] at h
          rw [← Except.ok.inj h]
  · intro β pv pf m c a msg hprep hc
    have h1 : prepare_thread_body pv pf m .Prechecking c =
        Except.map (fun _ => (a, m)) (runtime_construction_check (c a)) := by
      unfold prepare_thread_body
      rw [hprep]
      rfl
    rw [h1, hc]
    rfl

/-- Witness for C10: a concrete `Preparation` failure crosses the pipe
unchanged; a concrete success yields assembled stats; a concrete failing
pre-check probe yields `RuntimeConstruction`. -/
theorem claim_c10_witness :
    handle_child_process_response (.ok (.error (.Preparation "bad codegen"))) 7 none
      (fun _ => none) = .error (.Preparation "bad codegen") ∧
    (∃ a m, (Except.ok (Except.ok (([2, 3] : Bytes), (4 : Int))) :
        Except String (Except PrepareError (Bytes × Int))) = .ok (.ok (a, m)) ∧
      sample_probe_response.artifact = a ∧
      sample_probe_response.memory_stats =
        ⟨none, some 4, if 0 < (7 : Int) then (7 : Int).toNat else 0⟩) ∧
    prepare_thread_body (.ok ()) (fun _ => .ok [9]) 4 .Prechecking
      (fun _ => .error "no instance") = .error (.RuntimeConstruction "no instance") := by
  refine ⟨?_, ?_, ?_⟩
  · exact claim_c10_error_response_carries_no_stats.1 (.Preparation "bad codegen") 7 none
      (fun _ => none)
  · exact claim_c10_error_response_carries_no_stats.2.1
      (.ok (.ok ([2, 3], 4))) 7 none (fun _ => some 4) sample_probe_response rfl
  · exact claim_c10_error_response_carries_no_stats.2.2 Unit (.ok ())
      (fun _ => .ok [9]) 4 (fun _ => .error "no instance") [9] "no instance" rfl rfl

end Pvf
